import Mathlib

/-!
Verification development for the OpenTelemetry LGTM bootstrap core
(src/app/otel.go, the full variant with comprehensive resource detection).

The Go code is shallowly embedded as pure Lean functions:
* the process environment is a total map from variable names to strings,
  with the empty string standing for an unset variable (os.Getenv semantics);
* host/runtime facts that the code reads outside the environment
  (os.Hostname, /proc/self/cgroup, the service-account namespace file,
  runtime constants, otel.Version, crypto/rand output) are bundled in a
  HostInfo record supplied as an input;
* external exporter constructions (otlptracehttp.New, prometheus.New,
  otlpmetrichttp.New, otlploghttp.New) and resource.New detector errors are
  opaque collaborators: their success or failure is an input (BuildOutcomes);
* Go string slicing s[:n] is partial; an out-of-range slice (a runtime
  panic) is modelled as none;
* the three registered shutdown hooks are the SDK provider Shutdown
  methods; their fallible results are an input map from signal to an
  optional error message.
-/

namespace OtelLgtm

/-- Process environment: os.Getenv returns the empty string for unset
variables. -/
abbrev Env := String → String

/-- Host and runtime facts read by the code outside the environment map. -/
structure HostInfo where
  /-- Result of os.Hostname, none when the call errors. -/
  hostname : Option String
  /-- Content of /proc/self/cgroup, none when the read errors. -/
  cgroup : Option String
  /-- Content of the Kubernetes service-account namespace file, none when
  the read errors. -/
  saNamespace : Option String
  /-- runtime.Compiler. -/
  runtimeCompiler : String
  /-- runtime.Version(). -/
  runtimeVersion : String
  /-- runtime.GOOS. -/
  goos : String
  /-- runtime.GOARCH. -/
  goarch : String
  /-- otel.Version(). -/
  otelVersion : String
  /-- Output of generateUUID (crypto/rand); an arbitrary nonempty string. -/
  randomUUID : String
deriving Repr, DecidableEq

/-- Go byte slicing s[:n]: the first n characters when the string is long
enough; the out-of-range panic is modelled as none. -/
def goTake (s : String) (n : Nat) : Option String :=
  if n ≤ s.length then some (s.take n) else none

/-- strings.Contains for a nonempty separator: true exactly when splitting
on the separator yields more than one part, which is how the Go code pairs
Contains with Split. -/
def goContains (s sub : String) : Bool :=
  1 < (s.splitOn sub).length

/-- Config struct from src/app/otel.go. The float64 SampleRate field is
omitted here: it only feeds the trace sampler, which is modelled separately
with the ratio decision abstracted (see appSampler). -/
structure Config where
  ServiceName : String
  ServiceVersion : String
  ServiceNamespace : String
  Environment : String
  TraceEndpoint : String
  MetricsEndpoint : String
  LogsEndpoint : String
  EnablePrometheus : Bool
  InsecureMode : Bool
  ServiceInstanceID : String
  ServiceTeam : String
  ServiceOwner : String
  BuildTime : String
  GitCommit : String
  GitBranch : String
deriving Repr, DecidableEq

/-- getServiceName: SERVICE_NAME, then OTEL_SERVICE_NAME, then the default. -/
def getServiceName (env : Env) : String :=
  if env "SERVICE_NAME" ≠ "" then env "SERVICE_NAME"
  else if env "OTEL_SERVICE_NAME" ≠ "" then env "OTEL_SERVICE_NAME"
  else "otel-lgtm-api"

/-- getServiceNamespace: SERVICE_NAMESPACE, then OTEL_SERVICE_NAMESPACE. -/
def getServiceNamespace (env : Env) : String :=
  if env "SERVICE_NAMESPACE" ≠ "" then env "SERVICE_NAMESPACE"
  else if env "OTEL_SERVICE_NAMESPACE" ≠ "" then env "OTEL_SERVICE_NAMESPACE"
  else ""

/-- getServiceInstanceID: SERVICE_INSTANCE_ID, then OTEL_SERVICE_INSTANCE_ID. -/
def getServiceInstanceID (env : Env) : String :=
  if env "SERVICE_INSTANCE_ID" ≠ "" then env "SERVICE_INSTANCE_ID"
  else if env "OTEL_SERVICE_INSTANCE_ID" ≠ "" then env "OTEL_SERVICE_INSTANCE_ID"
  else ""

/-- getVersion: SERVICE_VERSION, then OTEL_SERVICE_VERSION, then dev. -/
def getVersion (env : Env) : String :=
  if env "SERVICE_VERSION" ≠ "" then env "SERVICE_VERSION"
  else if env "OTEL_SERVICE_VERSION" ≠ "" then env "OTEL_SERVICE_VERSION"
  else "dev"

/-- getEnvironment: ENVIRONMENT, DEPLOYMENT_ENVIRONMENT,
OTEL_DEPLOYMENT_ENVIRONMENT, then development. -/
def getEnvironment (env : Env) : String :=
  if env "ENVIRONMENT" ≠ "" then env "ENVIRONMENT"
  else if env "DEPLOYMENT_ENVIRONMENT" ≠ "" then env "DEPLOYMENT_ENVIRONMENT"
  else if env "OTEL_DEPLOYMENT_ENVIRONMENT" ≠ "" then env "OTEL_DEPLOYMENT_ENVIRONMENT"
  else "development"

/-- getBuildTime: BUILD_TIME, then SOURCE_DATE_EPOCH. -/
def getBuildTime (env : Env) : String :=
  if env "BUILD_TIME" ≠ "" then env "BUILD_TIME"
  else if env "SOURCE_DATE_EPOCH" ≠ "" then env "SOURCE_DATE_EPOCH"
  else ""

/-- getGitCommit: GIT_COMMIT, BUILD_COMMIT, then VCS_REF. -/
def getGitCommit (env : Env) : String :=
  if env "GIT_COMMIT" ≠ "" then env "GIT_COMMIT"
  else if env "BUILD_COMMIT" ≠ "" then env "BUILD_COMMIT"
  else if env "VCS_REF" ≠ "" then env "VCS_REF"
  else ""

/-- getGitBranch: GIT_BRANCH, then BUILD_BRANCH. -/
def getGitBranch (env : Env) : String :=
  if env "GIT_BRANCH" ≠ "" then env "GIT_BRANCH"
  else if env "BUILD_BRANCH" ≠ "" then env "BUILD_BRANCH"
  else ""

/-- getRuntimeDescription: Sprintf of compiler, version and GOOS/GOARCH. -/
def getRuntimeDescription (h : HostInfo) : String :=
  h.runtimeCompiler ++ " " ++ h.runtimeVersion ++ " " ++ h.goos ++ "/" ++ h.goarch

/-- The loop in getContainerID over the lines of /proc/self/cgroup: the
first line containing the docker marker yields the first 12 characters of
the text after the marker, via Go slicing that panics (none) when that text
is shorter than 12 characters; with no matching line the result is the
empty string. -/
def dockerIDFromLines : List String → Option String
  | [] => some ""
  | line :: rest =>
    if goContains line "/docker/" then
      let parts := line.splitOn "/docker/"
      if 1 < parts.length then goTake (parts.getD 1 "") 12
      else dockerIDFromLines rest
    else dockerIDFromLines rest

/-- getContainerID: CONTAINER_ID verbatim when set, otherwise the
cgroup-derived docker id (truncated there to 12 characters). -/
def getContainerID (env : Env) (cgroup : Option String) : Option String :=
  if env "CONTAINER_ID" ≠ "" then some (env "CONTAINER_ID")
  else
    match cgroup with
    | some data => dockerIDFromLines (data.splitOn "\n")
    | none => some ""

/-- getContainerName: CONTAINER_NAME, then HOSTNAME. -/
def getContainerName (env : Env) : String :=
  if env "CONTAINER_NAME" ≠ "" then env "CONTAINER_NAME"
  else if env "HOSTNAME" ≠ "" then env "HOSTNAME"
  else ""

/-- getContainerImageName: CONTAINER_IMAGE or IMAGE_NAME with the tag cut
off at the first colon. -/
def getContainerImageName (env : Env) : String :=
  if env "CONTAINER_IMAGE" ≠ "" then ((env "CONTAINER_IMAGE").splitOn ":").getD 0 ""
  else if env "IMAGE_NAME" ≠ "" then ((env "IMAGE_NAME").splitOn ":").getD 0 ""
  else ""

/-- getContainerImageTag: the part of CONTAINER_IMAGE after a colon, else
IMAGE_TAG. -/
def getContainerImageTag (env : Env) : String :=
  if env "CONTAINER_IMAGE" ≠ "" ∧ 1 < ((env "CONTAINER_IMAGE").splitOn ":").length then
    ((env "CONTAINER_IMAGE").splitOn ":").getD 1 ""
  else if env "IMAGE_TAG" ≠ "" then env "IMAGE_TAG"
  else ""

/-- getK8sPodName: K8S_POD_NAME, POD_NAME, then a hyphenated HOSTNAME. -/
def getK8sPodName (env : Env) : String :=
  if env "K8S_POD_NAME" ≠ "" then env "K8S_POD_NAME"
  else if env "POD_NAME" ≠ "" then env "POD_NAME"
  else if env "HOSTNAME" ≠ "" ∧ goContains (env "HOSTNAME") "-" then env "HOSTNAME"
  else ""

/-- getK8sPodUID: K8S_POD_UID, then POD_UID. -/
def getK8sPodUID (env : Env) : String :=
  if env "K8S_POD_UID" ≠ "" then env "K8S_POD_UID"
  else if env "POD_UID" ≠ "" then env "POD_UID"
  else ""

/-- getK8sNamespace: K8S_NAMESPACE, POD_NAMESPACE, then the trimmed content
of the service-account namespace file. -/
def getK8sNamespace (env : Env) (sa : Option String) : String :=
  if env "K8S_NAMESPACE" ≠ "" then env "K8S_NAMESPACE"
  else if env "POD_NAMESPACE" ≠ "" then env "POD_NAMESPACE"
  else
    match sa with
    | some data => data.trim
    | none => ""

/-- getK8sNodeName: K8S_NODE_NAME, then NODE_NAME. -/
def getK8sNodeName (env : Env) : String :=
  if env "K8S_NODE_NAME" ≠ "" then env "K8S_NODE_NAME"
  else if env "NODE_NAME" ≠ "" then env "NODE_NAME"
  else ""

/-- getK8sDeployment: K8S_DEPLOYMENT_NAME, then DEPLOYMENT_NAME. -/
def getK8sDeployment (env : Env) : String :=
  if env "K8S_DEPLOYMENT_NAME" ≠ "" then env "K8S_DEPLOYMENT_NAME"
  else if env "DEPLOYMENT_NAME" ≠ "" then env "DEPLOYMENT_NAME"
  else ""

/-- getCloudProvider: CLOUD_PROVIDER, then provider heuristics from
well-known variables. -/
def getCloudProvider (env : Env) : String :=
  if env "CLOUD_PROVIDER" ≠ "" then env "CLOUD_PROVIDER"
  else if env "AWS_REGION" ≠ "" ∨ env "AWS_DEFAULT_REGION" ≠ "" then "aws"
  else if env "GOOGLE_CLOUD_PROJECT" ≠ "" ∨ env "GCP_PROJECT" ≠ "" then "gcp"
  else if env "AZURE_SUBSCRIPTION_ID" ≠ "" then "azure"
  else ""

/-- getCloudPlatform: CLOUD_PLATFORM, then platform heuristics. -/
def getCloudPlatform (env : Env) : String :=
  if env "CLOUD_PLATFORM" ≠ "" then env "CLOUD_PLATFORM"
  else if env "AWS_LAMBDA_FUNCTION_NAME" ≠ "" then "aws_lambda"
  else if env "K_SERVICE" ≠ "" then "gcp_cloud_run"
  else if env "WEBSITE_SITE_NAME" ≠ "" then "azure_app_service"
  else ""

/-- getCloudRegion: CLOUD_REGION, AWS_REGION, AWS_DEFAULT_REGION, then
GOOGLE_CLOUD_REGION. -/
def getCloudRegion (env : Env) : String :=
  if env "CLOUD_REGION" ≠ "" then env "CLOUD_REGION"
  else if env "AWS_REGION" ≠ "" then env "AWS_REGION"
  else if env "AWS_DEFAULT_REGION" ≠ "" then env "AWS_DEFAULT_REGION"
  else if env "GOOGLE_CLOUD_REGION" ≠ "" then env "GOOGLE_CLOUD_REGION"
  else ""

/-- getCloudAZ: CLOUD_AVAILABILITY_ZONE, then AWS_AVAILABILITY_ZONE. -/
def getCloudAZ (env : Env) : String :=
  if env "CLOUD_AVAILABILITY_ZONE" ≠ "" then env "CLOUD_AVAILABILITY_ZONE"
  else if env "AWS_AVAILABILITY_ZONE" ≠ "" then env "AWS_AVAILABILITY_ZONE"
  else ""

/-- getCloudAccountID: CLOUD_ACCOUNT_ID, AWS_ACCOUNT_ID,
GOOGLE_CLOUD_PROJECT, then AZURE_SUBSCRIPTION_ID. -/
def getCloudAccountID (env : Env) : String :=
  if env "CLOUD_ACCOUNT_ID" ≠ "" then env "CLOUD_ACCOUNT_ID"
  else if env "AWS_ACCOUNT_ID" ≠ "" then env "AWS_ACCOUNT_ID"
  else if env "GOOGLE_CLOUD_PROJECT" ≠ "" then env "GOOGLE_CLOUD_PROJECT"
  else if env "AZURE_SUBSCRIPTION_ID" ≠ "" then env "AZURE_SUBSCRIPTION_ID"
  else ""

/-- getServiceTeam: SERVICE_TEAM, then TEAM. -/
def getServiceTeam (env : Env) : String :=
  if env "SERVICE_TEAM" ≠ "" then env "SERVICE_TEAM"
  else if env "TEAM" ≠ "" then env "TEAM"
  else ""

/-- getServiceOwner: SERVICE_OWNER, then OWNER. -/
def getServiceOwner (env : Env) : String :=
  if env "SERVICE_OWNER" ≠ "" then env "SERVICE_OWNER"
  else if env "OWNER" ≠ "" then env "OWNER"
  else ""

/-- generateInstanceID: SERVICE_INSTANCE_ID, then the container id truncated
to 12 characters by Go slicing (panic, modelled as none, when shorter), then
the Kubernetes pod UID, then the hostname, then a random UUID. -/
def generateInstanceID (env : Env) (h : HostInfo) : Option String :=
  if env "SERVICE_INSTANCE_ID" ≠ "" then some (env "SERVICE_INSTANCE_ID")
  else
    match getContainerID env h.cgroup with
    | none => none
    | some containerID =>
      if containerID ≠ "" then goTake containerID 12
      else if getK8sPodUID env ≠ "" then some (getK8sPodUID env)
      else
        match h.hostname with
        | some hn => some hn
        | none => some h.randomUUID

/-- DefaultConfig from src/app/otel.go. -/
def DefaultConfig (env : Env) : Config :=
  { ServiceName := getServiceName env
    ServiceVersion := getVersion env
    ServiceNamespace := getServiceNamespace env
    Environment := getEnvironment env
    TraceEndpoint := "http://localhost:4318/v1/traces"
    MetricsEndpoint := "http://localhost:4318/v1/metrics"
    LogsEndpoint := "http://localhost:4318/v1/logs"
    EnablePrometheus := true
    InsecureMode := true
    ServiceInstanceID := getServiceInstanceID env
    ServiceTeam := getServiceTeam env
    ServiceOwner := getServiceOwner env
    BuildTime := getBuildTime env
    GitCommit := getGitCommit env
    GitBranch := getGitBranch env }

/-- One resource attribute: a string key with its string value (every
attribute the explicit list builds is attribute.String or a semconv string
constructor). -/
structure Attr where
  key : String
  value : String
deriving Repr, DecidableEq

/-- The instance id resolution at the top of createResource: the config
value when nonempty, otherwise generateInstanceID. -/
def resolveInstanceID (c : Config) (env : Env) (h : HostInfo) : Option String :=
  if c.ServiceInstanceID ≠ "" then some c.ServiceInstanceID
  else generateInstanceID env h

/-- The explicit resource attribute list built by createResource, given the
already-resolved instance id and container id, in source order. -/
def resourceAttributeList (c : Config) (env : Env) (h : HostInfo)
    (instanceID containerID : String) : List Attr :=
  [ ⟨"service.name", c.ServiceName⟩,
    ⟨"service.version", c.ServiceVersion⟩,
    ⟨"service.instance.id", instanceID⟩,
    ⟨"service.namespace", c.ServiceNamespace⟩,
    ⟨"deployment.environment.name", c.Environment⟩,
    ⟨"telemetry.sdk.name", "opentelemetry"⟩,
    ⟨"telemetry.sdk.language", "go"⟩,
    ⟨"telemetry.sdk.version", h.otelVersion⟩,
    ⟨"service.build.time", if c.BuildTime ≠ "" then c.BuildTime else getBuildTime env⟩,
    ⟨"service.build.commit", if c.GitCommit ≠ "" then c.GitCommit else getGitCommit env⟩,
    ⟨"service.build.branch", if c.GitBranch ≠ "" then c.GitBranch else getGitBranch env⟩,
    ⟨"process.runtime.name", h.runtimeCompiler⟩,
    ⟨"process.runtime.version", h.runtimeVersion⟩,
    ⟨"process.runtime.description", getRuntimeDescription h⟩,
    ⟨"container.id", containerID⟩,
    ⟨"container.name", getContainerName env⟩,
    ⟨"container.image.name", getContainerImageName env⟩,
    ⟨"container.image.tag", getContainerImageTag env⟩,
    ⟨"k8s.pod.name", getK8sPodName env⟩,
    ⟨"k8s.pod.uid", getK8sPodUID env⟩,
    ⟨"k8s.namespace.name", getK8sNamespace env h.saNamespace⟩,
    ⟨"k8s.node.name", getK8sNodeName env⟩,
    ⟨"k8s.deployment.name", getK8sDeployment env⟩,
    ⟨"cloud.provider", getCloudProvider env⟩,
    ⟨"cloud.platform", getCloudPlatform env⟩,
    ⟨"cloud.region", getCloudRegion env⟩,
    ⟨"cloud.availability_zone", getCloudAZ env⟩,
    ⟨"cloud.account.id", getCloudAccountID env⟩,
    ⟨"service.team", if c.ServiceTeam ≠ "" then c.ServiceTeam else getServiceTeam env⟩,
    ⟨"service.owner", if c.ServiceOwner ≠ "" then c.ServiceOwner else getServiceOwner env⟩ ]

/-- The raw attribute list createResource assembles before filtering: first
the instance id is resolved (possibly panicking inside generateInstanceID),
then the list is built, evaluating getContainerID for the container.id
entry (which can also panic). -/
def createResourceAttrs (c : Config) (env : Env) (h : HostInfo) : Option (List Attr) := do
  let instanceID ← resolveInstanceID c env h
  let containerID ← getContainerID env h.cgroup
  pure (resourceAttributeList c env h instanceID containerID)

/-- The validAttributes filter in createResource: every attribute whose
string value is empty is dropped before resource.New is called. The later
merge with the SDK detectors (WithFromEnv and friends) is external to this
repository and outside the model. -/
def validAttributes (c : Config) (env : Env) (h : HostInfo) : Option (List Attr) :=
  (createResourceAttrs c env h).map (fun l => l.filter (fun a => a.value ≠ ""))

/-- Value of the first attribute with the given key, none when absent. -/
def lookupAttr (attrs : List Attr) (k : String) : Option String :=
  (attrs.find? (fun a => a.key = k)).map Attr.value

/-- The three telemetry signals; each successful setup step appends the
Shutdown method of its provider to shutdownFuncs, so a registered hook is
identified by its signal. -/
inductive Signal
  | trace
  | metric
  | logs
deriving Repr, DecidableEq

/-- TelemetryProvider as far as the lifecycle claims observe it: the list
of registered shutdown hooks in registration order. -/
structure TelemetryProvider where
  shutdownFuncs : List Signal
deriving Repr, DecidableEq

/-- Success or failure of the external constructions bootstrap performs:
the resource.New detector run and the four exporter constructors. -/
structure BuildOutcomes where
  resourceOk : Bool
  traceExporterOk : Bool
  prometheusOk : Bool
  otlpMetricOk : Bool
  logExporterOk : Bool
deriving Repr, DecidableEq

/-- setupTraceProvider: fails exactly when the OTLP trace exporter
construction fails; on success it registers the tracer provider Shutdown
hook. -/
def setupTraceProvider (oc : BuildOutcomes) (tp : TelemetryProvider) :
    Except String TelemetryProvider :=
  if oc.traceExporterOk then
    Except.ok { tp with shutdownFuncs := tp.shutdownFuncs ++ [Signal.trace] }
  else Except.error "failed to create trace exporter"

/-- setupMetricsProvider: the prometheus exporter is built only when
EnablePrometheus is set and its failure aborts; then the OTLP metrics
exporter may fail; on success the meter provider Shutdown hook is
registered. -/
def setupMetricsProvider (c : Config) (oc : BuildOutcomes) (tp : TelemetryProvider) :
    Except String TelemetryProvider :=
  if c.EnablePrometheus = true ∧ oc.prometheusOk = false then
    Except.error "failed to create prometheus exporter"
  else if oc.otlpMetricOk = false then
    Except.error "failed to create OTLP metrics exporter"
  else Except.ok { tp with shutdownFuncs := tp.shutdownFuncs ++ [Signal.metric] }

/-- setupLoggingProvider: fails exactly when the OTLP log exporter
construction fails; on success it registers the logger provider Shutdown
hook. -/
def setupLoggingProvider (oc : BuildOutcomes) (tp : TelemetryProvider) :
    Except String TelemetryProvider :=
  if oc.logExporterOk then
    Except.ok { tp with shutdownFuncs := tp.shutdownFuncs ++ [Signal.logs] }
  else Except.error "failed to create log exporter"

/-- The nil-config check at the top of NewTelemetryProvider: the zero value
of the *Config parameter (nil) is replaced by DefaultConfig. -/
def effectiveConfig (cfg : Option Config) (env : Env) : Config :=
  match cfg with
  | none => DefaultConfig env
  | some c => c

/-- Result of one bootstrap call: the returned provider or error, together
with the shutdown hooks the bootstrap code itself invoked along the way.
Every error branch in NewTelemetryProvider only wraps and returns the
error, so that second component is always empty. -/
structure BootstrapResult where
  result : Except String TelemetryProvider
  invokedDuringBootstrap : List Signal
deriving Repr

/-- NewTelemetryProvider: replace a nil config by DefaultConfig, create the
resource (a panic inside createResource is the outer none), then run the
three setup steps in order, wrapping and returning the first error. No
error branch invokes any shutdown hook. -/
def NewTelemetryProvider (cfg : Option Config) (env : Env) (h : HostInfo)
    (oc : BuildOutcomes) : Option BootstrapResult :=
  let config := effectiveConfig cfg env
  match validAttributes config env h with
  | none => none
  | some _ =>
    if oc.resourceOk = false then
      some ⟨Except.error "failed to create resource", []⟩
    else
      match setupTraceProvider oc ⟨[]⟩ with
      | Except.error e => some ⟨Except.error ("failed to setup trace provider: " ++ e), []⟩
      | Except.ok tp1 =>
        match setupMetricsProvider config oc tp1 with
        | Except.error e => some ⟨Except.error ("failed to setup metrics provider: " ++ e), []⟩
        | Except.ok tp2 =>
          match setupLoggingProvider oc tp2 with
          | Except.error e => some ⟨Except.error ("failed to setup logging provider: " ++ e), []⟩
          | Except.ok tp3 => some ⟨Except.ok tp3, []⟩

/-- What one Shutdown call does, given the fallible results of the three
SDK provider Shutdown methods for this call: the loop runs i from the end
of shutdownFuncs down to 0, invoking every hook and collecting the errors
in that order. The method never mutates the provider: shutdownFuncs is
only read, and no closed flag exists. -/
structure ShutdownResult where
  invoked : List Signal
  collected : List String
deriving Repr, DecidableEq

/-- TelemetryProvider.Shutdown observed as the invocation trace and the
collected error list. -/
def Shutdown (tp : TelemetryProvider) (hookErr : Signal → Option String) :
    ShutdownResult :=
  ⟨tp.shutdownFuncs.reverse, tp.shutdownFuncs.reverse.filterMap hookErr⟩

/-- The return value of Shutdown: nil when no hook failed, otherwise the
single combined error wrapping exactly the collected errors slice. -/
def shutdownError (tp : TelemetryProvider) (hookErr : Signal → Option String) :
    Option (List String) :=
  if (Shutdown tp hookErr).collected = [] then none
  else some (Shutdown tp hookErr).collected

/-- A sampler decision as a function of the trace id (the only span datum
the samplers wired here consult). -/
abbrev SamplerFn := Nat → Bool

/-- sdktrace.AlwaysSample. -/
def alwaysSample : SamplerFn := fun _ => true

/-- sdktrace.NeverSample. -/
def neverSample : SamplerFn := fun _ => false

/-- sdktrace.TraceIDRatioBased with its precomputed integer upper bound
(the SDK derives the bound from the float ratio once; the decision itself
compares the low 8 bytes of the trace id, shifted right by one, against
that bound). -/
def traceIDRatioBased (upperBound : Nat) : SamplerFn :=
  fun traceID => (traceID % 2 ^ 64) >>> 1 < upperBound

/-- Sampling-relevant facts about a parent span context. -/
structure ParentInfo where
  remote : Bool
  sampled : Bool
deriving Repr, DecidableEq

/-- A ParentBased sampler: the root sampler plus the four delegate
samplers for the parent cases. -/
structure ParentBasedSampler where
  root : SamplerFn
  remoteParentSampled : SamplerFn
  remoteParentNotSampled : SamplerFn
  localParentSampled : SamplerFn
  localParentNotSampled : SamplerFn

/-- The ParentBased dispatch: no valid parent uses the root sampler,
otherwise the delegate matching the remote and sampled flags of the
parent decides. -/
def ParentBasedSampler.shouldSample (s : ParentBasedSampler)
    (parent : Option ParentInfo) (traceID : Nat) : Bool :=
  match parent with
  | none => s.root traceID
  | some p =>
    if p.sampled then
      if p.remote then s.remoteParentSampled traceID else s.localParentSampled traceID
    else
      if p.remote then s.remoteParentNotSampled traceID else s.localParentNotSampled traceID

/-- The sampler wired in setupTraceProvider: ParentBased over the ratio
sampler, with AlwaysSample for a sampled parent (remote or local),
NeverSample for an unsampled remote parent, and the same ratio sampler for
an unsampled local parent. The ratio argument stands for
TraceIDRatioBased(Config.SampleRate), used identically in both places. -/
def appSampler (ratio : SamplerFn) : ParentBasedSampler :=
  { root := ratio
    remoteParentSampled := alwaysSample
    remoteParentNotSampled := neverSample
    localParentSampled := alwaysSample
    localParentNotSampled := ratio }

/-- An environment with every variable unset. -/
def emptyEnv : Env := fun _ => ""

/-- Concrete host facts used by the witnesses and counterexamples. -/
def demoHost : HostInfo :=
  { hostname := some "demo-host"
    cgroup := none
    saNamespace := none
    runtimeCompiler := "gc"
    runtimeVersion := "go1.23.6"
    goos := "linux"
    goarch := "amd64"
    otelVersion := "1.37.0"
    randomUUID := "00010203-0405-0607-0809-0a0b0c0d0e0f" }

/-- A concrete caller-supplied configuration. -/
def demoConfig : Config :=
  { ServiceName := "checkout-explicit"
    ServiceVersion := "1.2.3"
    ServiceNamespace := ""
    Environment := "staging"
    TraceEndpoint := "http://localhost:4318/v1/traces"
    MetricsEndpoint := "http://localhost:4318/v1/metrics"
    LogsEndpoint := "http://localhost:4318/v1/logs"
    EnablePrometheus := true
    InsecureMode := true
    ServiceInstanceID := "inst-1"
    ServiceTeam := ""
    ServiceOwner := ""
    BuildTime := ""
    GitCommit := ""
    GitBranch := "" }

/-- Every external construction succeeds. -/
def allBuildsOk : BuildOutcomes := ⟨true, true, true, true, true⟩

/-- The OTLP metrics exporter construction fails; everything before it
succeeds. -/
def metricBuildFails : BuildOutcomes := ⟨true, true, true, false, true⟩

/-- The provider a fully successful bootstrap returns. -/
def demoProvider : TelemetryProvider := ⟨[Signal.trace, Signal.metric, Signal.logs]⟩

/-- Every SDK provider Shutdown succeeds. -/
def okHooks : Signal → Option String := fun _ => none

/-- Only the meter provider Shutdown fails. -/
def metricHookFails : Signal → Option String :=
  fun s => if s = Signal.metric then some "metric shutdown failed" else none

/-- Helper: the three possible shapes of a bootstrap run. Either
createResource panicked, or an error was returned with no hook invoked, or
every step succeeded, the success recording that none of the external
constructions failed and that the hooks were registered in the order
trace, metric, logs. -/
theorem bootstrap_cases (cfg : Option Config) (env : Env) (h : HostInfo)
    (oc : BuildOutcomes) :
    NewTelemetryProvider cfg env h oc = none ∨
    (∃ e, NewTelemetryProvider cfg env h oc = some ⟨Except.error e, []⟩) ∨
    (oc.resourceOk = true ∧ oc.traceExporterOk = true ∧
      ((effectiveConfig cfg env).EnablePrometheus = false ∨ oc.prometheusOk = true) ∧
      oc.otlpMetricOk = true ∧ oc.logExporterOk = true ∧
      NewTelemetryProvider cfg env h oc =
        some ⟨Except.ok ⟨[Signal.trace, Signal.metric, Signal.logs]⟩, []⟩) := by
  obtain ⟨ro, te, po, om, le⟩ := oc
  cases hval : validAttributes (effectiveConfig cfg env) env h <;>
    cases ro <;> cases te <;>
    cases hep : (effectiveConfig cfg env).EnablePrometheus <;>
    cases po <;> cases om <;> cases le <;>
    simp [NewTelemetryProvider, setupTraceProvider, setupMetricsProvider,
      setupLoggingProvider, hval, hep]

/-- Helper: no hook is ever invoked by the bootstrap code itself. -/
theorem bootstrap_invokes_no_hook (cfg : Option Config) (env : Env) (h : HostInfo)
    (oc : BuildOutcomes) (r : BootstrapResult)
    (hb : NewTelemetryProvider cfg env h oc = some r) :
    r.invokedDuringBootstrap = [] := by
  rcases bootstrap_cases cfg env h oc with hn | ⟨e, he⟩ | ⟨_, _, _, _, _, hk⟩
  · rw [hn] at hb; exact Option.noConfusion hb
  · rw [he] at hb; cases hb; rfl
  · rw [hk] at hb; cases hb; rfl

/-- Helper: a successful bootstrap registered exactly the trace, metric and
log hooks, in that order. -/
theorem bootstrap_ok_hooks (cfg : Option Config) (env : Env) (h : HostInfo)
    (oc : BuildOutcomes) (r : BootstrapResult) (tp : TelemetryProvider)
    (hb : NewTelemetryProvider cfg env h oc = some r)
    (hok : r.result = Except.ok tp) :
    tp.shutdownFuncs = [Signal.trace, Signal.metric, Signal.logs] := by
  rcases bootstrap_cases cfg env h oc with hn | ⟨e, he⟩ | ⟨_, _, _, _, _, hk⟩
  · rw [hn] at hb; exact Option.noConfusion hb
  · rw [he] at hb; cases hb; exact Except.noConfusion hok
  · rw [hk] at hb; cases hb
    cases hok
    rfl

/-- Helper: Shutdown returns nil exactly when every registered hook
succeeded on this call. -/
theorem shutdownError_eq_none_iff (tp : TelemetryProvider)
    (hookErr : Signal → Option String) :
    shutdownError tp hookErr = none ↔ ∀ s ∈ tp.shutdownFuncs, hookErr s = none := by
  have hmain : (Shutdown tp hookErr).collected = [] ↔
      ∀ s ∈ tp.shutdownFuncs, hookErr s = none := by
    unfold Shutdown
    simp [List.filterMap_eq_nil_iff, List.mem_reverse]
  unfold shutdownError
  by_cases hc : (Shutdown tp hookErr).collected = []
  · simpa [hc] using hmain.mp hc
  · simp only [if_neg hc]
    constructor
    · intro hsome; exact Option.noConfusion hsome
    · intro hall; exact absurd (hmain.mpr hall) hc

/-- Helper: when the lookup key appears in a list only with empty values,
the key is absent from the empty-filtered list. -/
theorem lookupAttr_filter_eq_none (l : List Attr) (k : String)
    (hk : ∀ a ∈ l, a.key = k → a.value = "") :
    lookupAttr (l.filter (fun a => a.value ≠ "")) k = none := by
  induction l with
  | nil => rfl
  | cons a l ih =>
    have ha := hk a (List.mem_cons_self a l)
    have ihl := ih (fun b hb => hk b (List.mem_cons_of_mem a hb))
    rw [List.filter_cons]
    by_cases hv : a.value ≠ ""
    · have hkey : a.key ≠ k := fun hkk => hv (ha hkk)
      simpa [hv, lookupAttr, List.find?_cons, hkey] using ihl
    · simpa [hv] using ihl

/-- C1 counterexample: after a successful bootstrap and a completed first
Shutdown call, a second Shutdown call on the same provider still invokes
all three registered hooks (the method never clears shutdownFuncs and
keeps no closed flag, so the provider state a second call sees is
unchanged), and it returns an error when a hook fails on that call —
contradicting the claim that the second call invokes no hook and returns
success. -/
theorem shutdown_second_call_not_noop_cex :
    NewTelemetryProvider (some demoConfig) emptyEnv demoHost allBuildsOk =
      some ⟨Except.ok demoProvider, []⟩ ∧
    shutdownError demoProvider okHooks = none ∧
    (Shutdown demoProvider okHooks).invoked =
      [Signal.logs, Signal.metric, Signal.trace] ∧
    (Shutdown demoProvider okHooks).invoked ≠ [] ∧
    shutdownError demoProvider metricHookFails = some ["metric shutdown failed"] :=
  ⟨rfl, rfl, rfl, by decide, rfl⟩

/-- C1 (amended): a second Shutdown call behaves exactly like the first
call on the same provider state: it invokes every registered hook again in
reverse registration order, and returns success exactly when every hook
succeeds on that call; the provider records no closed state. -/
theorem shutdown_second_call_reruns_every_hook (tp : TelemetryProvider)
    (hookErr1 hookErr2 : Signal → Option String) :
    (Shutdown tp hookErr2).invoked = (Shutdown tp hookErr1).invoked ∧
    (Shutdown tp hookErr2).invoked = tp.shutdownFuncs.reverse ∧
    (shutdownError tp hookErr2 = none ↔ ∀ s ∈ tp.shutdownFuncs, hookErr2 s = none) :=
  ⟨rfl, rfl, shutdownError_eq_none_iff tp hookErr2⟩

/-- C2 counterexample: when the OTLP metrics exporter construction fails
after the trace pipeline was built, NewTelemetryProvider returns the
wrapped error having invoked the trace shutdown hook zero times, not
exactly once: the error branch only returns. -/
theorem bootstrap_metric_failure_cex :
    NewTelemetryProvider (some demoConfig) emptyEnv demoHost metricBuildFails =
      some ⟨Except.error
        "failed to setup metrics provider: failed to create OTLP metrics exporter", []⟩ ∧
    (NewTelemetryProvider (some demoConfig) emptyEnv demoHost metricBuildFails).elim 1
      (fun r => r.invokedDuringBootstrap.count Signal.trace) = 0 :=
  ⟨rfl, rfl⟩

/-- C2 (amended): when metric pipeline construction fails after the trace
pipeline succeeded, bootstrap returns an error, but no shutdown hook has
been invoked: the trace pipeline hook is called zero times, so the
partially-built trace pipeline is left running. -/
theorem bootstrap_metric_failure_no_cleanup (cfg : Option Config) (env : Env)
    (h : HostInfo) (oc : BuildOutcomes) (r : BootstrapResult)
    (hb : NewTelemetryProvider cfg env h oc = some r)
    (hres : oc.resourceOk = true) (htr : oc.traceExporterOk = true)
    (hm : ((effectiveConfig cfg env).EnablePrometheus = true ∧ oc.prometheusOk = false) ∨
      oc.otlpMetricOk = false) :
    (∃ e, r.result = Except.error e) ∧
    r.invokedDuringBootstrap.count Signal.trace = 0 := by
  have hinv := bootstrap_invokes_no_hook cfg env h oc r hb
  refine ⟨?_, by rw [hinv]; rfl⟩
  rcases bootstrap_cases cfg env h oc with hn | ⟨e, he⟩ | ⟨_, _, hpo, hom, _, hk⟩
  · rw [hn] at hb; exact Option.noConfusion hb
  · rw [he] at hb; cases hb; exact ⟨e, rfl⟩
  · exfalso
    rcases hm with ⟨hep1, hpo1⟩ | hom1
    · rcases hpo with hep2 | hpo2
      · rw [hep1] at hep2; exact Bool.noConfusion hep2
      · rw [hpo1] at hpo2; exact Bool.noConfusion hpo2
    · rw [hom1] at hom; exact Bool.noConfusion hom

/-- Witness for C2: at concrete inputs where only the OTLP metrics
exporter fails, bootstrap yields an error and zero trace hook
invocations. -/
theorem bootstrap_metric_failure_no_cleanup_witness :
    (∃ e, (BootstrapResult.mk (Except.error
        "failed to setup metrics provider: failed to create OTLP metrics exporter")
        []).result = Except.error e) ∧
    (BootstrapResult.mk (Except.error
        "failed to setup metrics provider: failed to create OTLP metrics exporter")
        []).invokedDuringBootstrap.count Signal.trace = 0 :=
  bootstrap_metric_failure_no_cleanup (some demoConfig) emptyEnv demoHost
    metricBuildFails _ rfl rfl rfl (Or.inr rfl)

/-- Environment for the C3 counterexample: only SERVICE_NAME is set. -/
def c3Env : Env := fun k => if k = "SERVICE_NAME" then "checkout" else ""

/-- Config for the C3 counterexample: explicit empty ServiceName. -/
def c3Config : Config := { demoConfig with ServiceName := "" }

/-- C3 counterexample: with Config.ServiceName empty and SERVICE_NAME set
to checkout, createResource drops the service.name attribute entirely
instead of resolving it to the environment value: the environment variable
is never consulted by createResource. -/
theorem service_name_env_fallback_cex :
    c3Config.ServiceName = "" ∧
    c3Env "SERVICE_NAME" = "checkout" ∧
    (validAttributes c3Config c3Env demoHost).map
      (fun attrs => lookupAttr attrs "service.name") = some none :=
  ⟨rfl, rfl, rfl⟩

/-- C3 (amended): an explicit non-empty Config.ServiceName always wins
(the resolved service.name equals it, whatever the environment holds);
when Config.ServiceName is empty the service.name attribute is dropped
from the explicit attribute list rather than taken from SERVICE_NAME; the
SERVICE_NAME variable reaches service.name only through DefaultConfig,
when the caller passes no config. -/
theorem service_name_resolution (c : Config) (env : Env) (h : HostInfo)
    (attrs : List Attr) (hv : validAttributes c env h = some attrs) :
    (c.ServiceName ≠ "" → lookupAttr attrs "service.name" = some c.ServiceName) ∧
    (c.ServiceName = "" → lookupAttr attrs "service.name" = none) ∧
    (env "SERVICE_NAME" ≠ "" → (DefaultConfig env).ServiceName = env "SERVICE_NAME") := by
  unfold validAttributes createResourceAttrs at hv
  cases hiid : resolveInstanceID c env h with
  | none => rw [hiid] at hv; exact absurd hv (by simp)
  | some iid =>
    cases hcid : getContainerID env h.cgroup with
    | none => rw [hiid, hcid] at hv; exact absurd hv (by simp)
    | some cid =>
      rw [hiid, hcid] at hv
      have hv2 : some ((resourceAttributeList c env h iid cid).filter
          (fun a => a.value ≠ "")) = some attrs := hv
      cases hv2
      refine ⟨?_, ?_, ?_⟩
      · intro hne
        simp [resourceAttributeList, lookupAttr, hne]
      · intro he
        refine lookupAttr_filter_eq_none _ _ ?_
        intro a ha hkey
        simp only [resourceAttributeList, List.mem_cons, List.not_mem_nil,
          or_false] at ha
        rcases ha with rfl | rfl | rfl | rfl | rfl | rfl | rfl | rfl | rfl | rfl |
          rfl | rfl | rfl | rfl | rfl | rfl | rfl | rfl | rfl | rfl | rfl | rfl |
          rfl | rfl | rfl | rfl | rfl | rfl | rfl | rfl
        all_goals first
          | exact he
          | simp at hkey
      · intro hne
        simp [DefaultConfig, getServiceName, hne]

/-- Environment for the C3 witness: SERVICE_NAME set while the config
carries its own explicit name. -/
def c3wEnv : Env := fun k => if k = "SERVICE_NAME" then "checkout-env" else ""

/-- The attribute list the C3 witness resolves. -/
def c3wAttrs : List Attr := (validAttributes demoConfig c3wEnv demoHost).getD []

/-- Witness for C3: the explicit config name wins over the environment. -/
theorem service_name_resolution_witness :
    lookupAttr c3wAttrs "service.name" = some demoConfig.ServiceName :=
  (service_name_resolution demoConfig c3wEnv demoHost c3wAttrs rfl).1 (by decide)

/-- C4: after a successful bootstrap, Shutdown invokes every registered
hook whatever the individual results are, returns nil exactly when all
hooks succeed, and otherwise returns one combined error wrapping exactly
the errors of the hooks that failed, in invocation order. -/
theorem shutdown_runs_all_hooks_and_aggregates_errors (cfg : Option Config)
    (env : Env) (h : HostInfo) (oc : BuildOutcomes) (r : BootstrapResult)
    (tp : TelemetryProvider)
    (hb : NewTelemetryProvider cfg env h oc = some r)
    (hok : r.result = Except.ok tp)
    (hookErr : Signal → Option String) :
    tp.shutdownFuncs = [Signal.trace, Signal.metric, Signal.logs] ∧
    (Shutdown tp hookErr).invoked = tp.shutdownFuncs.reverse ∧
    (shutdownError tp hookErr = none ↔ ∀ s ∈ tp.shutdownFuncs, hookErr s = none) ∧
    ∀ errs, shutdownError tp hookErr = some errs →
      errs = tp.shutdownFuncs.reverse.filterMap hookErr ∧ errs ≠ [] := by
  refine ⟨bootstrap_ok_hooks cfg env h oc r tp hb hok, rfl,
    shutdownError_eq_none_iff tp hookErr, ?_⟩
  intro errs herrs
  unfold shutdownError at herrs
  by_cases hc : (Shutdown tp hookErr).collected = []
  · rw [if_pos hc] at herrs; exact Option.noConfusion herrs
  · rw [if_neg hc] at herrs
    cases herrs
    exact ⟨rfl, hc⟩

/-- Witness for C4 at a successful concrete bootstrap with a failing
metric hook. -/
theorem shutdown_runs_all_hooks_witness :
    demoProvider.shutdownFuncs = [Signal.trace, Signal.metric, Signal.logs] :=
  (shutdown_runs_all_hooks_and_aggregates_errors (some demoConfig) emptyEnv demoHost
    allBuildsOk ⟨Except.ok demoProvider, []⟩ demoProvider rfl rfl metricHookFails).1

/-- C5: bootstrap registers the trace, metric and log hooks in that order,
and Shutdown invokes them in strict reverse registration order: log first,
then metric, then trace. -/
theorem shutdown_reverse_registration_order (cfg : Option Config) (env : Env)
    (h : HostInfo) (oc : BuildOutcomes) (r : BootstrapResult)
    (tp : TelemetryProvider) (hookErr : Signal → Option String)
    (hb : NewTelemetryProvider cfg env h oc = some r)
    (hok : r.result = Except.ok tp) :
    tp.shutdownFuncs = [Signal.trace, Signal.metric, Signal.logs] ∧
    (Shutdown tp hookErr).invoked = [Signal.logs, Signal.metric, Signal.trace] := by
  have h3 := bootstrap_ok_hooks cfg env h oc r tp hb hok
  refine ⟨h3, ?_⟩
  have hi : (Shutdown tp hookErr).invoked = tp.shutdownFuncs.reverse := rfl
  rw [hi, h3]
  rfl

/-- Witness for C5 at a successful concrete bootstrap. -/
theorem shutdown_reverse_registration_order_witness :
    (Shutdown demoProvider okHooks).invoked =
      [Signal.logs, Signal.metric, Signal.trace] :=
  (shutdown_reverse_registration_order (some demoConfig) emptyEnv demoHost
    allBuildsOk ⟨Except.ok demoProvider, []⟩ demoProvider okHooks rfl rfl).2

/-- C6: every attribute in the explicitly-built resource attribute list
with an empty resolved value is dropped by the filter before resource.New:
the filtered list never contains an empty-string value. -/
theorem resource_attributes_never_empty (c : Config) (env : Env) (h : HostInfo)
    (attrs : List Attr) (hv : validAttributes c env h = some attrs) :
    ∀ a ∈ attrs, a.value ≠ "" := by
  unfold validAttributes at hv
  cases hc : createResourceAttrs c env h with
  | none => rw [hc] at hv; exact absurd hv (by simp)
  | some l =>
    rw [hc] at hv
    have hv2 : some (l.filter (fun a => a.value ≠ "")) = some attrs := hv
    cases hv2
    intro a ha
    exact of_decide_eq_true (List.mem_filter.mp ha).2

/-- The attribute list the C6 witness resolves. -/
def c6Attrs : List Attr := (validAttributes demoConfig emptyEnv demoHost).getD []

/-- Witness for C6 at a concrete member of a concrete filtered list. -/
theorem resource_attributes_never_empty_witness :
    Attr.value ⟨"service.name", "checkout-explicit"⟩ ≠ "" :=
  resource_attributes_never_empty demoConfig emptyEnv demoHost c6Attrs rfl
    ⟨"service.name", "checkout-explicit"⟩ (by decide)

/-- C7: the sampler wired in setupTraceProvider is parent based over the
configured ratio: any sampled parent (remote or local) forces the child to
be sampled whatever the ratio decides, an explicitly unsampled remote
parent forces never-sample, and an unsampled local parent re-applies the
very ratio decision used at the root. -/
theorem parent_based_sampling_policy (ratio : SamplerFn) (rm : Bool) (tid : Nat) :
    (appSampler ratio).shouldSample (some ⟨rm, true⟩) tid = true ∧
    (appSampler ratio).shouldSample (some ⟨true, false⟩) tid = false ∧
    (appSampler ratio).shouldSample (some ⟨false, false⟩) tid = ratio tid ∧
    (appSampler ratio).shouldSample none tid = ratio tid := by
  refine ⟨?_, rfl, rfl, rfl⟩
  cases rm <;> rfl

/-- Environment for the C8 counterexample: both the instance-id variable
and a long container id are set. -/
def c8Env : Env := fun k =>
  if k = "SERVICE_INSTANCE_ID" then "from-env"
  else if k = "CONTAINER_ID" then "0123456789abcdef"
  else ""

/-- Config for the C8 instance-id claims: explicit instance id empty. -/
def c8Config : Config := { demoConfig with ServiceInstanceID := "" }

/-- C8 counterexample: with the explicit config value empty, a non-empty
SERVICE_INSTANCE_ID environment variable wins over a non-empty container
id, so the claimed chain (config, then container id, then pod UID, then
hostname, then random) skips a tier the code consults. -/
theorem instance_id_fallback_chain_cex :
    c8Config.ServiceInstanceID = "" ∧
    getContainerID c8Env demoHost.cgroup = some "0123456789abcdef" ∧
    goTake "0123456789abcdef" 12 = some "0123456789ab" ∧
    resolveInstanceID c8Config c8Env demoHost = some "from-env" ∧
    ("from-env" : String) ≠ "0123456789ab" := by
  refine ⟨rfl, rfl, rfl, rfl, by decide⟩

/-- C8 (amended): instance id resolution follows the chain explicit config
value, then the SERVICE_INSTANCE_ID environment variable, then the
container id truncated to 12 characters, then the Kubernetes pod UID,
then the hostname, then the random identifier, first non-empty source
winning. -/
theorem instance_id_fallback_chain (c : Config) (env : Env) (h : HostInfo) :
    (c.ServiceInstanceID ≠ "" →
      resolveInstanceID c env h = some c.ServiceInstanceID) ∧
    (c.ServiceInstanceID = "" → env "SERVICE_INSTANCE_ID" ≠ "" →
      resolveInstanceID c env h = some (env "SERVICE_INSTANCE_ID")) ∧
    (∀ cid, c.ServiceInstanceID = "" → env "SERVICE_INSTANCE_ID" = "" →
      getContainerID env h.cgroup = some cid → cid ≠ "" →
      resolveInstanceID c env h = goTake cid 12) ∧
    (c.ServiceInstanceID = "" → env "SERVICE_INSTANCE_ID" = "" →
      getContainerID env h.cgroup = some "" → getK8sPodUID env ≠ "" →
      resolveInstanceID c env h = some (getK8sPodUID env)) ∧
    (∀ hn, c.ServiceInstanceID = "" → env "SERVICE_INSTANCE_ID" = "" →
      getContainerID env h.cgroup = some "" → getK8sPodUID env = "" →
      h.hostname = some hn → resolveInstanceID c env h = some hn) ∧
    (c.ServiceInstanceID = "" → env "SERVICE_INSTANCE_ID" = "" →
      getContainerID env h.cgroup = some "" → getK8sPodUID env = "" →
      h.hostname = none → resolveInstanceID c env h = some h.randomUUID) := by
  refine ⟨?_, ?_, ?_, ?_, ?_, ?_⟩
  · intro h1; simp [resolveInstanceID, h1]
  · intro h1 h2; simp [resolveInstanceID, generateInstanceID, h1, h2]
  · intro cid h1 h2 h3 h4
    simp [resolveInstanceID, generateInstanceID, h1, h2, h3, h4]
  · intro h1 h2 h3 h4
    simp [resolveInstanceID, generateInstanceID, h1, h2, h3, h4]
  · intro hn h1 h2 h3 h4 h5
    simp [resolveInstanceID, generateInstanceID, h1, h2, h3, h4, h5]
  · intro h1 h2 h3 h4 h5
    simp [resolveInstanceID, generateInstanceID, h1, h2, h3, h4, h5]

/-- Environment for the C8 witness: only a long container id is set. -/
def c8wEnv : Env := fun k => if k = "CONTAINER_ID" then "0123456789abcdef" else ""

/-- Witness for C8 at the container-id tier. -/
theorem instance_id_fallback_chain_witness :
    resolveInstanceID c8Config c8wEnv demoHost = goTake "0123456789abcdef" 12 :=
  (instance_id_fallback_chain c8Config c8wEnv demoHost).2.2.1 "0123456789abcdef"
    rfl rfl rfl (by decide)

/-- C9: the zero value of the *Config parameter (nil) is replaced by
DefaultConfig before use, and with no environment override the resolved
environment is development and the resolved service version is dev. -/
theorem nil_config_replaced_by_defaults (env : Env)
    (he1 : env "ENVIRONMENT" = "") (he2 : env "DEPLOYMENT_ENVIRONMENT" = "")
    (he3 : env "OTEL_DEPLOYMENT_ENVIRONMENT" = "")
    (hv1 : env "SERVICE_VERSION" = "") (hv2 : env "OTEL_SERVICE_VERSION" = "") :
    effectiveConfig none env = DefaultConfig env ∧
    (effectiveConfig none env).Environment = "development" ∧
    (effectiveConfig none env).ServiceVersion = "dev" := by
  refine ⟨rfl, ?_, ?_⟩
  · simp [effectiveConfig, DefaultConfig, getEnvironment, he1, he2, he3]
  · simp [effectiveConfig, DefaultConfig, getVersion, hv1, hv2]

/-- Witness for C9 in the empty environment. -/
theorem nil_config_replaced_by_defaults_witness :
    effectiveConfig none emptyEnv = DefaultConfig emptyEnv ∧
    (effectiveConfig none emptyEnv).Environment = "development" ∧
    (effectiveConfig none emptyEnv).ServiceVersion = "dev" :=
  nil_config_replaced_by_defaults emptyEnv rfl rfl rfl rfl rfl

/-- C10: the containerID truncation in generateInstanceID is in bounds
exactly for container ids of length at least 12: with a non-empty
container id of length at least 12 the derivation succeeds with the first
12 characters, while a shorter non-empty value (as a short CONTAINER_ID
environment value yields) makes the Go slice panic, modelled as none. -/
theorem instance_id_truncation_precondition (env : Env) (h : HostInfo)
    (cid : String) (hno : env "SERVICE_INSTANCE_ID" = "")
    (hcid : getContainerID env h.cgroup = some cid) (hne : cid ≠ "") :
    (12 ≤ cid.length → generateInstanceID env h = some (cid.take 12)) ∧
    (cid.length < 12 → generateInstanceID env h = none) := by
  constructor
  · intro hlen
    simp [generateInstanceID, hno, hcid, hne, goTake, hlen]
  · intro hlen
    simp [generateInstanceID, hno, hcid, hne, goTake, Nat.not_le.mpr hlen]

/-- Environment for the C10 witness: a 3-character CONTAINER_ID. -/
def c10Env : Env := fun k => if k = "CONTAINER_ID" then "abc" else ""

/-- Witness for C10: the short container id makes the derivation panic. -/
theorem instance_id_truncation_precondition_witness :
    generateInstanceID c10Env demoHost = none :=
  (instance_id_truncation_precondition c10Env demoHost "abc" rfl rfl
    (by decide)).2 (by decide)

end OtelLgtm
